import Mathlib

/-!
Verification of the French budget simulator's projection engine
(`src/projection-engine-v1.8.js`, with the reform-combination logic of
`src/App.jsx`), shallowly embedded over exact rationals.  JavaScript
numbers are modelled by `ℚ`; `Math.round` is modelled exactly
(round-half-up, `⌊x + 1/2⌋`), and the one place where the code can divide
by zero (`assessDoomLoop`'s severity ratio) is modelled with an explicit
IEEE-style extended value (`JsNum`) so that the Infinity/NaN behaviour of
the comparison operators is captured faithfully.
-/

set_option maxRecDepth 4000

namespace BudgetSim

/-- JavaScript `Math.round`: round half toward positive infinity. -/
def jsRound (x : ℚ) : ℤ := ⌊x + 1/2⌋

/-- `Math.round(x * 10) / 10`: round to one decimal place. -/
def round1 (x : ℚ) : ℚ := (jsRound (x * 10) : ℚ) / 10

/-- `Math.round(x * 100) / 100`: round to two decimal places. -/
def round2 (x : ℚ) : ℚ := (jsRound (x * 100) : ℚ) / 100

/-- Risk premium curve parameters (`MACRO_BASELINE.riskPremium`). -/
structure RiskPremiumParams where
  enabled : Bool
  threshold1 : ℚ
  slope1 : ℚ
  threshold2 : ℚ
  slope2 : ℚ
  threshold3 : ℚ
  slope3 : ℚ
  politicalPremium : ℚ
deriving DecidableEq

/-- The process-wide baseline constants (`MACRO_BASELINE`). -/
structure MacroBaseline where
  year : ℕ
  gdp : ℚ
  debt : ℚ
  debtToGdp : ℚ
  baseInterestRate : ℚ
  riskPremium : RiskPremiumParams
  nominalGrowth : ℚ
  realGrowth : ℚ
  inflation : ℚ
  primaryDeficit : ℚ
  taxElasticity : ℚ
deriving DecidableEq

/-- `MACRO_BASELINE` from the source, verbatim values. -/
def MACRO_BASELINE : MacroBaseline :=
  { year := 2025
    gdp := 2850
    debt := 3300
    debtToGdp := 115.8
    baseInterestRate := 0.032
    riskPremium :=
      { enabled := true
        threshold1 := 60
        slope1 := 0.0003
        threshold2 := 90
        slope2 := 0.0004
        threshold3 := 120
        slope3 := 0.0010
        politicalPremium := 0.0000 }
    nominalGrowth := 0.029
    realGrowth := 0.011
    inflation := 0.018
    primaryDeficit := 84
    taxElasticity := 0.45 }

/-- A structural reform (an entry of `STRUCTURAL_REFORMS`, or the object
built by `combinedReformEffect`).  The purely informational metadata
fields (`description`, `source`, `confidence`, combined-reform labels)
play no role in any computation and are omitted. -/
structure Reform where
  label : String
  growthEffect : ℚ
  lag : ℕ
  duration : ℕ
deriving DecidableEq

/-- `STRUCTURAL_REFORMS.laborMarket`. -/
def laborMarket : Reform :=
  { label := "Flexibilisation marché du travail", growthEffect := 0.0015, lag := 2, duration := 10 }

/-- `STRUCTURAL_REFORMS.productMarketRegulation`. -/
def productMarketRegulation : Reform :=
  { label := "Ouverture professions réglementées", growthEffect := 0.0010, lag := 2, duration := 8 }

/-- `STRUCTURAL_REFORMS.planning`. -/
def planning : Reform :=
  { label := "Réforme droit de l'urbanisme", growthEffect := 0.0015, lag := 3, duration := 15 }

/-- `STRUCTURAL_REFORMS.education`. -/
def education : Reform :=
  { label := "Réforme formation professionnelle", growthEffect := 0.0008, lag := 5, duration := 20 }

/-- `STRUCTURAL_REFORMS.energy`. -/
def energy : Reform :=
  { label := "Dérégulation marché énergie", growthEffect := 0.0012, lag := 2, duration := 10 }

/-- Options object of `calculateInterestRate`; the defaults are the
source's destructuring defaults. -/
structure RateOptions where
  baseRate : ℚ := MACRO_BASELINE.baseInterestRate
  enablePremium : Bool := true
  politicalRisk : ℚ := 0
deriving DecidableEq

/-- The `premium` computed inside `calculateInterestRate`: the four-regime
piecewise-linear sovereign risk premium (source lines 176-200). -/
def sovereignPremium (debtRatio : ℚ) : ℚ :=
  let rp := MACRO_BASELINE.riskPremium
  if debtRatio ≤ rp.threshold1 then
    0
  else if debtRatio ≤ rp.threshold2 then
    (debtRatio - rp.threshold1) * rp.slope1
  else if debtRatio ≤ rp.threshold3 then
    (rp.threshold2 - rp.threshold1) * rp.slope1 + (debtRatio - rp.threshold2) * rp.slope2
  else
    (rp.threshold2 - rp.threshold1) * rp.slope1 + (rp.threshold3 - rp.threshold2) * rp.slope2 +
      (debtRatio - rp.threshold3) * rp.slope3

/-- `calculateInterestRate(debtRatio, options)` (source lines 164-203). -/
def calculateInterestRate (debtRatio : ℚ) (options : RateOptions) : ℚ :=
  if !options.enablePremium then
    options.baseRate + options.politicalRisk
  else
    options.baseRate + sovereignPremium debtRatio + options.politicalRisk

/-- `calculateReformGrowthBoost(year, reform)` (source lines 219-238).
The engine only ever calls it with the integer loop index, so `year` is a
natural number; the natural subtraction in the fade exponent agrees with
the source because that branch has `year ≥ lag + duration`. -/
def calculateReformGrowthBoost (year : ℕ) (reform : Reform) : ℚ :=
  if year < reform.lag then
    reform.growthEffect * ((year : ℚ) / (reform.lag : ℚ))
  else if year < reform.lag + reform.duration then
    reform.growthEffect
  else
    reform.growthEffect * (0.93 : ℚ) ^ (year - (reform.lag + reform.duration))

/-- `policyChanges` input of `projectFiscalPath`, with the source's
destructuring defaults. -/
structure PolicyChanges where
  revenueChange : ℚ := 0
  spendingChange : ℚ := 0
  growthEffect : ℚ := 0
deriving DecidableEq

/-- `options` input of `projectFiscalPath`, with the source's
destructuring defaults.  `years` is an integer so that the behaviour of
the `for (let t = 0; t <= years; t++)` loop on a negative horizon (zero
iterations) is representable. -/
structure ProjectionOptions where
  years : ℤ := 10
  enableRiskPremium : Bool := true
  politicalRiskPremium : ℚ := 0
  structuralReform : Option Reform := none
deriving DecidableEq

/-- One element of the projection output array (`results.push({...})`,
source lines 311-334): all fields exactly as emitted, i.e. after the
display rounding applied by the source. -/
structure ProjectionYear where
  year : ℕ
  gdp : ℚ
  deficit : ℚ
  interest : ℚ
  primaryDeficit : ℚ
  debt : ℚ
  debtRatio : ℚ
  deficitRatio : ℚ
  interestRatio : ℚ
  effectiveInterestRate : ℚ
  nominalGrowthRate : ℚ
  riskPremiumBps : ℚ
deriving DecidableEq

/-- Step 1 of the loop body: this year's nominal growth
(baseline + policy growth effect + reform boost, source lines 282-291). -/
def nominalGrowthAt (policyChanges : PolicyChanges) (options : ProjectionOptions) (t : ℕ) : ℚ :=
  MACRO_BASELINE.nominalGrowth + policyChanges.growthEffect +
    (match options.structuralReform with
     | some reform => calculateReformGrowthBoost t reform
     | none => 0)

/-- Step 2 of the loop body: `debtRatio = (debt / gdp) * 100`. -/
def debtRatioOf (gdp debt : ℚ) : ℚ := debt / gdp * 100

/-- Steps 2-3 of the loop body: the endogenous effective interest rate
(source lines 294-298). -/
def effectiveRateAt (options : ProjectionOptions) (gdp debt : ℚ) : ℚ :=
  calculateInterestRate (debtRatioOf gdp debt)
    { enablePremium := options.enableRiskPremium
      politicalRisk := options.politicalRiskPremium }

/-- Step 3 of the loop body: `primaryDeficit` after the policy's deficit
improvement (source lines 278 and 302). -/
def primaryDeficitOf (policyChanges : PolicyChanges) : ℚ :=
  MACRO_BASELINE.primaryDeficit - (policyChanges.revenueChange - policyChanges.spendingChange)

/-- Steps 3-4 of the loop body: the adjusted deficit
(`totalDeficit - growthFeedback`, source lines 301-308). -/
def adjustedDeficitAt (policyChanges : PolicyChanges) (options : ProjectionOptions)
    (t : ℕ) (gdp debt : ℚ) : ℚ :=
  (primaryDeficitOf policyChanges + debt * effectiveRateAt options gdp debt) -
    (nominalGrowthAt policyChanges options t - MACRO_BASELINE.nominalGrowth) * gdp *
      MACRO_BASELINE.taxElasticity

/-- Step 5 of the loop body: the emitted snapshot, with the source's
rounding on every derived field (source lines 311-334). -/
def snapshotAt (policyChanges : PolicyChanges) (options : ProjectionOptions)
    (t : ℕ) (gdp debt : ℚ) : ProjectionYear :=
  let nominalGrowth := nominalGrowthAt policyChanges options t
  let effectiveRate := effectiveRateAt options gdp debt
  let interest := debt * effectiveRate
  let adjustedDeficit := adjustedDeficitAt policyChanges options t gdp debt
  { year := MACRO_BASELINE.year + t
    gdp := round1 gdp
    deficit := round1 adjustedDeficit
    interest := round1 interest
    primaryDeficit := round1 (primaryDeficitOf policyChanges)
    debt := round1 debt
    debtRatio := round1 (debtRatioOf gdp debt)
    deficitRatio := round1 (adjustedDeficit / gdp * 100)
    interestRatio := round2 (interest / gdp * 100)
    effectiveInterestRate := (jsRound (effectiveRate * 10000) : ℚ) / 100
    nominalGrowthRate := (jsRound (nominalGrowth * 10000) : ℚ) / 100
    riskPremiumBps := (jsRound ((effectiveRate - MACRO_BASELINE.baseInterestRate) * 10000) : ℚ) }

/-- One iteration's full record: the pre-rounding state and flow values
seen by the loop body at year `t`, together with the emitted snapshot. -/
structure YearRec where
  rawGdp : ℚ
  rawDebt : ℚ
  rawNominalGrowth : ℚ
  rawAdjustedDeficit : ℚ
  snapshot : ProjectionYear
deriving DecidableEq

/-- The record pushed at year `t` when the state variables hold
`gdp`/`debt`. -/
def stepRecord (policyChanges : PolicyChanges) (options : ProjectionOptions)
    (t : ℕ) (gdp debt : ℚ) : YearRec :=
  { rawGdp := gdp
    rawDebt := debt
    rawNominalGrowth := nominalGrowthAt policyChanges options t
    rawAdjustedDeficit := adjustedDeficitAt policyChanges options t gdp debt
    snapshot := snapshotAt policyChanges options t gdp debt }

/-- The projection loop (`for (let t = 0; t <= years; t++)`, source lines
280-339), with the iteration count made explicit as fuel.  Step 6 (state
evolution) happens after the record is emitted, exactly as in the source:
`gdp ← gdp * (1 + nominalGrowth)`, `debt ← debt + adjustedDeficit`. -/
def projectLoop (policyChanges : PolicyChanges) (options : ProjectionOptions) :
    ℕ → ℕ → ℚ → ℚ → List YearRec
  | 0, _, _, _ => []
  | fuel + 1, t, gdp, debt =>
    stepRecord policyChanges options t gdp debt ::
      projectLoop policyChanges options fuel (t + 1)
        (gdp * (1 + nominalGrowthAt policyChanges options t))
        (debt + adjustedDeficitAt policyChanges options t gdp debt)

/-- `projectFiscalPath` with the pre-rounding state kept alongside each
emitted snapshot.  The loop runs for `t = 0 .. years` inclusive, i.e.
`(years + 1).toNat` iterations (zero when `years < 0`), starting from the
baseline stocks. -/
def projectFiscalPathAux (policyChanges : PolicyChanges) (options : ProjectionOptions) :
    List YearRec :=
  projectLoop policyChanges options (options.years + 1).toNat 0 MACRO_BASELINE.gdp MACRO_BASELINE.debt

/-- `projectFiscalPath(policyChanges, options)` (source lines 257-342):
the emitted snapshot sequence. -/
def projectFiscalPath (policyChanges : PolicyChanges) (options : ProjectionOptions) :
    List ProjectionYear :=
  (projectFiscalPathAux policyChanges options).map (·.snapshot)

/-- `getBaselineProjection(years)` (source lines 351-361). -/
def getBaselineProjection (years : ℤ) : List ProjectionYear :=
  projectFiscalPath
    { revenueChange := 0, spendingChange := 0, growthEffect := 0 }
    { years := years, enableRiskPremium := true, structuralReform := none }

/-- One element of `compareProjections`' output (source lines 375-381). -/
structure ProjectionComparison where
  year : ℕ
  yearOffset : ℕ
  debtRatioDiff : ℚ
  deficitRatioDiff : ℚ
  interestDiff : ℚ
deriving DecidableEq

/-- `compareProjections(projectionA, projectionB, targetYears)` (source
lines 366-385): offsets out of range for either projection are skipped
(`continue`), all others produce one comparison, in request order. -/
def compareProjections (projectionA projectionB : List ProjectionYear)
    (targetYears : List ℕ) : List ProjectionComparison :=
  targetYears.filterMap (fun offset =>
    if h : offset < projectionA.length ∧ offset < projectionB.length then
      let a := projectionA.get ⟨offset, h.1⟩
      let b := projectionB.get ⟨offset, h.2⟩
      some { year := a.year
             yearOffset := offset
             debtRatioDiff := round1 (a.debtRatio - b.debtRatio)
             deficitRatioDiff := round1 (a.deficitRatio - b.deficitRatio)
             interestDiff := round1 (a.interest - b.interest) }
    else none)

/-- An IEEE-style extended number: the value of a JavaScript arithmetic
expression that may divide by zero.  Only what `assessDoomLoop` needs. -/
inductive JsNum where
  | fin : ℚ → JsNum
  | posInf : JsNum
  | negInf : JsNum
  | nan : JsNum
deriving DecidableEq

/-- JavaScript division `a / b` on exact inputs: finite for `b ≠ 0`,
`±Infinity` for a nonzero numerator over zero (the denominator reaching
it in the source is `Math.abs(...)`, hence `+0`), `NaN` for `0 / 0`. -/
def jsDiv (a b : ℚ) : JsNum :=
  if b = 0 then
    if 0 < a then JsNum.posInf else if a < 0 then JsNum.negInf else JsNum.nan
  else
    JsNum.fin (a / b)

/-- JavaScript `x > c` for an extended `x`: comparisons with `NaN` are
false, `Infinity` exceeds every finite bound. -/
def JsNum.gtQ : JsNum → ℚ → Bool
  | JsNum.fin q, c => c < q
  | JsNum.posInf, _ => true
  | JsNum.negInf, _ => false
  | JsNum.nan, _ => false

/-- Output of `assessDoomLoop` (source lines 402-408).  The field written
`premiumIncreaseB ps` in the source object literal is named
`premiumIncreaseBps` here. -/
structure DoomLoopAssessment where
  debtRatioChange : ℚ
  interestRatioChange : ℚ
  premiumIncreaseBps : ℚ
  severity : String
  doomLoopActive : Bool
deriving DecidableEq

/-- `assessDoomLoop(projection)` (source lines 391-409): reads only
`projection[0]` and `projection[projection.length - 1]`.  `none` models
the crash on an empty array (`projection[0]` is `undefined`). -/
def assessDoomLoop (projection : List ProjectionYear) : Option DoomLoopAssessment :=
  match projection.head?, projection.getLast? with
  | some start, some last =>
    let debtIncrease := last.debtRatio - start.debtRatio
    let interestIncrease := last.interestRatio - start.interestRatio
    let premiumIncrease := last.riskPremiumBps - start.riskPremiumBps
    let severity := jsDiv interestIncrease |last.deficitRatio|
    some
      { debtRatioChange := round1 debtIncrease
        interestRatioChange := round2 interestIncrease
        premiumIncreaseBps := (jsRound premiumIncrease : ℚ)
        severity := if severity.gtQ 0.3 then "high"
                    else if severity.gtQ 0.15 then "medium"
                    else "low"
        doomLoopActive := decide (premiumIncrease > 20) }
  | _, _ => none

/-- `combinedReformEffect` from `src/App.jsx` (lines 197-214): `null` for
an empty selection, otherwise the summed growth effects of the selected
catalog entries times the 0.85 overlap penalty, the minimum lag and the
maximum duration.  Selected entries are passed as resolved `Reform`
values (the JSX resolves keys through `STRUCTURAL_REFORMS`). -/
def combinedReformEffect (selectedReforms : List Reform) : Option Reform :=
  match selectedReforms with
  | [] => none
  | e :: rest =>
    some
      { label := toString (selectedReforms.length) ++ " réformes combinées"
        growthEffect := ((e :: rest).map (·.growthEffect)).sum * 0.85
        lag := (rest.map (·.lag)).foldl min e.lag
        duration := (rest.map (·.duration)).foldl max e.duration }

/-- A sample emitted snapshot (baseline-like year-0 values), used as a
concrete endpoint in witnesses. -/
def snapA : ProjectionYear :=
  { year := 2025, gdp := 2850, deficit := 154.1, interest := 105.6, primaryDeficit := 84
    debt := 3300, debtRatio := 115.8, deficitRatio := 5.4, interestRatio := 3.71
    effectiveInterestRate := 5.13, nominalGrowthRate := 2.9, riskPremiumBps := 193 }

/-- A sample emitted snapshot (late-horizon values), used as a concrete
endpoint in witnesses. -/
def snapB : ProjectionYear :=
  { year := 2035, gdp := 3800, deficit := 200.3, interest := 190.2, primaryDeficit := 84
    debt := 4800, debtRatio := 126.3, deficitRatio := 5.3, interestRatio := 5.01
    effectiveInterestRate := 5.9, nominalGrowthRate := 2.9, riskPremiumBps := 270 }

/-- A sample interior snapshot. -/
def snapMid1 : ProjectionYear :=
  { year := 2030, gdp := 3300, deficit := 170, interest := 140, primaryDeficit := 84
    debt := 4000, debtRatio := 121.2, deficitRatio := 5.2, interestRatio := 4.24
    effectiveInterestRate := 5.5, nominalGrowthRate := 2.9, riskPremiumBps := 230 }

/-- Another sample interior snapshot, different from `snapMid1`. -/
def snapMid2 : ProjectionYear :=
  { year := 2031, gdp := 3400, deficit := 175, interest := 150, primaryDeficit := 84
    debt := 4200, debtRatio := 123.5, deficitRatio := 5.1, interestRatio := 4.41
    effectiveInterestRate := 5.6, nominalGrowthRate := 2.9, riskPremiumBps := 240 }

/-- A sample final snapshot whose emitted deficit ratio is exactly 0. -/
def snapZeroDeficit : ProjectionYear :=
  { year := 2035, gdp := 3800, deficit := 0, interest := 190.2, primaryDeficit := 84
    debt := 4800, debtRatio := 126.3, deficitRatio := 0, interestRatio := 5.01
    effectiveInterestRate := 5.9, nominalGrowthRate := 2.9, riskPremiumBps := 270 }

/-- The head snapshot of the default baseline projection: year 0 computed
on the unmodified baseline stocks. -/
def baselineHeadSnapshot : ProjectionYear :=
  snapshotAt { revenueChange := 0, spendingChange := 0, growthEffect := 0 }
    { years := 10, enableRiskPremium := true, structuralReform := none } 0
    MACRO_BASELINE.gdp MACRO_BASELINE.debt

/-- The year-0 record of the two-year baseline run with the labor-market
reform selected (the run used to exercise the accumulation identity). -/
def reformRec0 : YearRec :=
  stepRecord { revenueChange := 0, spendingChange := 0, growthEffect := 0 }
    { years := 2, structuralReform := some laborMarket } 0
    MACRO_BASELINE.gdp MACRO_BASELINE.debt

/-- The year-1 record of the same run: the state after one evolution
step. -/
def reformRec1 : YearRec :=
  stepRecord { revenueChange := 0, spendingChange := 0, growthEffect := 0 }
    { years := 2, structuralReform := some laborMarket } 1
    (MACRO_BASELINE.gdp *
      (1 + nominalGrowthAt { revenueChange := 0, spendingChange := 0, growthEffect := 0 }
        { years := 2, structuralReform := some laborMarket } 0))
    (MACRO_BASELINE.debt +
      adjustedDeficitAt { revenueChange := 0, spendingChange := 0, growthEffect := 0 }
        { years := 2, structuralReform := some laborMarket } 0
        MACRO_BASELINE.gdp MACRO_BASELINE.debt)

/-! ### Helper lemmas -/

/-- The loop emits nothing when the fuel is exhausted. -/
lemma projectLoop_zero (p : PolicyChanges) (o : ProjectionOptions) (t : ℕ) (g d : ℚ) :
    projectLoop p o 0 t g d = [] := rfl

/-- One unfolding of the loop: emit this year's record, then recurse on
the evolved state. -/
lemma projectLoop_succ (p : PolicyChanges) (o : ProjectionOptions) (n t : ℕ) (g d : ℚ) :
    projectLoop p o (n + 1) t g d =
      stepRecord p o t g d ::
        projectLoop p o n (t + 1) (g * (1 + nominalGrowthAt p o t))
          (d + adjustedDeficitAt p o t g d) := rfl

/-- The sovereign premium curve is monotone non-decreasing on all of `ℚ`. -/
lemma sovereignPremium_mono {r1 r2 : ℚ} (h : r1 ≤ r2) :
    sovereignPremium r1 ≤ sovereignPremium r2 := by
  unfold sovereignPremium
  dsimp only [MACRO_BASELINE]
  norm_num only
  split_ifs <;> nlinarith

/-- `projectLoop` produces exactly `fuel` records. -/
lemma projectLoop_length (policyChanges : PolicyChanges) (options : ProjectionOptions) :
    ∀ (fuel t : ℕ) (gdp debt : ℚ),
      (projectLoop policyChanges options fuel t gdp debt).length = fuel := by
  intro fuel
  induction fuel with
  | zero => intro t gdp debt; rfl
  | succ n ih => intro t gdp debt; simp [projectLoop, ih]

/-- Consecutive records of the loop satisfy the state-evolution
identities: the next record's pre-rounding stocks are this record's
stocks advanced by this record's pre-rounding flows. -/
lemma projectLoop_consecutive (p : PolicyChanges) (o : ProjectionOptions) :
    ∀ (fuel t : ℕ) (g d : ℚ) (i : ℕ) (r r' : YearRec),
      (projectLoop p o fuel t g d).get? i = some r →
      (projectLoop p o fuel t g d).get? (i + 1) = some r' →
      r'.rawDebt = r.rawDebt + r.rawAdjustedDeficit ∧
      r'.rawGdp = r.rawGdp * (1 + r.rawNominalGrowth) := by
  intro fuel
  induction fuel with
  | zero =>
    intro t g d i r r' h _
    rw [projectLoop_zero] at h
    simp at h
  | succ n ih =>
    intro t g d i r r' h h'
    rw [projectLoop_succ] at h h'
    cases i with
    | zero =>
      simp only [List.get?_cons_zero, Option.some.injEq] at h
      simp only [List.get?_cons_succ] at h'
      cases n with
      | zero => rw [projectLoop_zero] at h'; simp at h'
      | succ m =>
        rw [projectLoop_succ] at h'
        simp only [List.get?_cons_zero, Option.some.injEq] at h'
        subst h
        subst h'
        exact ⟨rfl, rfl⟩
    | succ j =>
      simp only [List.get?_cons_succ] at h h'
      exact ih (t + 1) _ _ j r r' h h'

/-- Every record the loop emits is a `stepRecord`, so its snapshot's
rounded fields are the advertised roundings of its raw fields. -/
lemma projectLoop_record_shape (p : PolicyChanges) (o : ProjectionOptions) :
    ∀ (fuel t : ℕ) (g d : ℚ) (r : YearRec), r ∈ projectLoop p o fuel t g d →
      r.snapshot.nominalGrowthRate = (jsRound (r.rawNominalGrowth * 10000) : ℚ) / 100 ∧
      r.snapshot.debt = round1 r.rawDebt ∧
      r.snapshot.gdp = round1 r.rawGdp ∧
      r.snapshot.deficit = round1 r.rawAdjustedDeficit := by
  intro fuel
  induction fuel with
  | zero =>
    intro t g d r h
    rw [projectLoop_zero] at h
    simp at h
  | succ n ih =>
    intro t g d r h
    rw [projectLoop_succ] at h
    rcases List.mem_cons.mp h with h0 | h1
    · subst h0
      exact ⟨rfl, rfl, rfl, rfl⟩
    · exact ih (t + 1) _ _ r h1

/-! ### Claim theorems -/

/-- C2: for every fixed `baseRate` and `politicalRisk` with the premium
enabled, `calculateInterestRate` is monotone non-decreasing in the debt
ratio over all of `ℚ` (negative ratios fall into regime 1), and the
premium is continuous at `threshold2` and `threshold3`: the function
value at each threshold equals both the lower regime's formula there and
the upper regime's formula at excess 0. -/
theorem calculateInterestRate_monotone_continuous :
    ∀ (base pol r1 r2 : ℚ), r1 ≤ r2 →
      (calculateInterestRate r1 { baseRate := base, enablePremium := true, politicalRisk := pol } ≤
        calculateInterestRate r2 { baseRate := base, enablePremium := true, politicalRisk := pol }) ∧
      (sovereignPremium MACRO_BASELINE.riskPremium.threshold2 =
        (MACRO_BASELINE.riskPremium.threshold2 - MACRO_BASELINE.riskPremium.threshold1) *
          MACRO_BASELINE.riskPremium.slope1) ∧
      (sovereignPremium MACRO_BASELINE.riskPremium.threshold2 =
        (MACRO_BASELINE.riskPremium.threshold2 - MACRO_BASELINE.riskPremium.threshold1) *
            MACRO_BASELINE.riskPremium.slope1 +
          (MACRO_BASELINE.riskPremium.threshold2 - MACRO_BASELINE.riskPremium.threshold2) *
            MACRO_BASELINE.riskPremium.slope2) ∧
      (sovereignPremium MACRO_BASELINE.riskPremium.threshold3 =
        (MACRO_BASELINE.riskPremium.threshold2 - MACRO_BASELINE.riskPremium.threshold1) *
            MACRO_BASELINE.riskPremium.slope1 +
          (MACRO_BASELINE.riskPremium.threshold3 - MACRO_BASELINE.riskPremium.threshold2) *
            MACRO_BASELINE.riskPremium.slope2) ∧
      (sovereignPremium MACRO_BASELINE.riskPremium.threshold3 =
        (MACRO_BASELINE.riskPremium.threshold2 - MACRO_BASELINE.riskPremium.threshold1) *
            MACRO_BASELINE.riskPremium.slope1 +
          (MACRO_BASELINE.riskPremium.threshold3 - MACRO_BASELINE.riskPremium.threshold2) *
            MACRO_BASELINE.riskPremium.slope2 +
          (MACRO_BASELINE.riskPremium.threshold3 - MACRO_BASELINE.riskPremium.threshold3) *
            MACRO_BASELINE.riskPremium.slope3) := by
  intro base pol r1 r2 h
  refine ⟨?_, by norm_num [sovereignPremium, MACRO_BASELINE], by norm_num [sovereignPremium, MACRO_BASELINE], by norm_num [sovereignPremium, MACRO_BASELINE], by norm_num [sovereignPremium, MACRO_BASELINE]⟩
  unfold calculateInterestRate
  simp only [Bool.not_true, Bool.false_eq_true, if_false]
  have := sovereignPremium_mono h
  linarith

/-- Witness for C2 at concrete inputs. -/
theorem calculateInterestRate_monotone_continuous_witness :
    calculateInterestRate 80 { baseRate := 0.032, enablePremium := true, politicalRisk := 0 } ≤
      calculateInterestRate 130 { baseRate := 0.032, enablePremium := true, politicalRisk := 0 } :=
  (calculateInterestRate_monotone_continuous 0.032 0 80 130 (by norm_num)).1

/-- C3: for a reform with positive lag and positive effect, the boost is
0 at year 0, exactly `growthEffect` at year `lag`, and in the fade phase
(`t ≥ lag + duration`) it strictly decreases with each year and never
equals 0. -/
theorem reformBoost_profile :
    ∀ (reform : Reform), 0 < reform.lag → 0 < reform.growthEffect →
      calculateReformGrowthBoost 0 reform = 0 ∧
      calculateReformGrowthBoost reform.lag reform = reform.growthEffect ∧
      (∀ t : ℕ, reform.lag + reform.duration ≤ t →
        calculateReformGrowthBoost (t + 1) reform < calculateReformGrowthBoost t reform ∧
        calculateReformGrowthBoost t reform ≠ 0) := by
  intro reform hlag heff
  refine ⟨?_, ?_, ?_⟩
  · simp [calculateReformGrowthBoost, hlag]
  · unfold calculateReformGrowthBoost
    rcases Nat.eq_zero_or_pos reform.duration with hd | hd
    · simp [hd, lt_irrefl]
    · have h1 : ¬ reform.lag < reform.lag := lt_irrefl _
      have h2 : reform.lag < reform.lag + reform.duration := by omega
      simp [h1, h2]
  · intro t ht
    have hnp1 : ¬ t < reform.lag := by omega
    have hnp2 : ¬ t < reform.lag + reform.duration := by omega
    have hnp1' : ¬ t + 1 < reform.lag := by omega
    have hnp2' : ¬ t + 1 < reform.lag + reform.duration := by omega
    have hexp : t + 1 - (reform.lag + reform.duration) =
        (t - (reform.lag + reform.duration)) + 1 := by omega
    constructor
    · unfold calculateReformGrowthBoost
      simp only [hnp1, hnp2, hnp1', hnp2', if_false, hexp]
      have hpow : (0.93 : ℚ) ^ ((t - (reform.lag + reform.duration)) + 1) <
          (0.93 : ℚ) ^ (t - (reform.lag + reform.duration)) :=
        pow_lt_pow_right_of_lt_one₀ (by norm_num) (by norm_num) (by omega)
      exact mul_lt_mul_of_pos_left hpow heff
    · unfold calculateReformGrowthBoost
      simp only [hnp1, hnp2, if_false]
      have hpow : (0 : ℚ) < (0.93 : ℚ) ^ (t - (reform.lag + reform.duration)) :=
        pow_pos (by norm_num) _
      exact ne_of_gt (mul_pos heff hpow)

/-- Witness for C3 at the labor-market reform (lag 2, duration 10). -/
theorem reformBoost_profile_witness :
    calculateReformGrowthBoost 0 laborMarket = 0 ∧
    calculateReformGrowthBoost 2 laborMarket = laborMarket.growthEffect ∧
    calculateReformGrowthBoost 13 laborMarket < calculateReformGrowthBoost 12 laborMarket ∧
    calculateReformGrowthBoost 12 laborMarket ≠ 0 := by
  obtain ⟨h0, hpk, hfade⟩ := reformBoost_profile laborMarket (by norm_num [laborMarket])
    (by norm_num [laborMarket])
  obtain ⟨hlt, hne⟩ := hfade 12 (by norm_num [laborMarket])
  exact ⟨h0, hpk, hlt, hne⟩

/-- C9: with `lag = 0` the phase-in branch (`year < lag`) is unreachable
for every year, so its division by `lag` is never executed; the boost is
`growthEffect` throughout `0 ≤ t < duration` (immediate peak phase), and
the function is total: it equals the peak value or the fade value for
every year. -/
theorem reformBoost_lagZero :
    ∀ (reform : Reform) (t : ℕ), reform.lag = 0 →
      ¬ (t < reform.lag) ∧
      (t < reform.duration → calculateReformGrowthBoost t reform = reform.growthEffect) ∧
      calculateReformGrowthBoost t reform =
        (if t < reform.duration then reform.growthEffect
         else reform.growthEffect * (0.93 : ℚ) ^ (t - reform.duration)) := by
  intro reform t hlag
  refine ⟨by omega, ?_, ?_⟩
  · intro ht
    unfold calculateReformGrowthBoost
    simp [hlag, ht]
  · unfold calculateReformGrowthBoost
    simp [hlag]

/-- Witness for C9: a reform with zero lag, evaluated inside its peak. -/
theorem reformBoost_lagZero_witness :
    ¬ ((3 : ℕ) < (Reform.mk "immediate" 0.002 0 5).lag) ∧
    ((3 : ℕ) < (Reform.mk "immediate" 0.002 0 5).duration →
      calculateReformGrowthBoost 3 (Reform.mk "immediate" 0.002 0 5) =
        (Reform.mk "immediate" 0.002 0 5).growthEffect) ∧
    calculateReformGrowthBoost 3 (Reform.mk "immediate" 0.002 0 5) =
      (if (3 : ℕ) < (Reform.mk "immediate" 0.002 0 5).duration
       then (Reform.mk "immediate" 0.002 0 5).growthEffect
       else (Reform.mk "immediate" 0.002 0 5).growthEffect *
         (0.93 : ℚ) ^ (3 - (Reform.mk "immediate" 0.002 0 5).duration)) :=
  reformBoost_lagZero (Reform.mk "immediate" 0.002 0 5) 3 rfl

/-- C5 (amended): whenever at least one catalog entry is selected,
`combinedReformEffect` returns the sum of the selected entries'
`growthEffect` values multiplied by the 0.85 overlap penalty — the
penalty is applied even when a single entry is selected. -/
theorem combinedReformEffect_growthEffect :
    ∀ (selectedReforms : List Reform), selectedReforms ≠ [] →
      (combinedReformEffect selectedReforms).map (·.growthEffect) =
        some (((selectedReforms.map (·.growthEffect)).sum) * 0.85) := by
  intro selectedReforms h
  match selectedReforms with
  | [] => exact absurd rfl h
  | e :: rest => rfl

/-- Witness for C5: the spec's two-reform scenario,
(0.0015 + 0.0010) × 0.85 = 0.002125. -/
theorem combinedReformEffect_growthEffect_witness :
    (combinedReformEffect [laborMarket, productMarketRegulation]).map (·.growthEffect) =
      some ((([laborMarket, productMarketRegulation].map (·.growthEffect)).sum) * 0.85) ∧
    (([laborMarket, productMarketRegulation].map (·.growthEffect)).sum) * 0.85 = 0.002125 := by
  constructor
  · exact combinedReformEffect_growthEffect [laborMarket, productMarketRegulation] (by simp)
  · norm_num [laborMarket, productMarketRegulation]

/-- C5 counterexample: a single selected entry does NOT keep its raw
`growthEffect` — the 0.85 penalty is applied to it as well
(0.0015 becomes 0.001275). -/
theorem combinedReformEffect_single_cex :
    (combinedReformEffect [laborMarket]).map (·.growthEffect) ≠ some laborMarket.growthEffect ∧
    (combinedReformEffect [laborMarket]).map (·.growthEffect) = some (0.001275 : ℚ) ∧
    laborMarket.growthEffect = (0.0015 : ℚ) := by
  refine ⟨?_, ?_, ?_⟩ <;> norm_num [combinedReformEffect, laborMarket]

/-- C7: `compareProjections` is total and silently skips every offset
that is not a valid index into both projections: the emitted
`yearOffset`s are exactly the in-range requested offsets, in request
order (so there is exactly one entry per valid requested offset). -/
theorem compareProjections_skips_invalid :
    ∀ (projectionA projectionB : List ProjectionYear) (targetYears : List ℕ),
      ((compareProjections projectionA projectionB targetYears).map (·.yearOffset) =
        targetYears.filter
          (fun o => decide (o < projectionA.length) && decide (o < projectionB.length))) ∧
      ((compareProjections projectionA projectionB targetYears).length =
        (targetYears.filter
          (fun o => decide (o < projectionA.length) && decide (o < projectionB.length))).length) := by
  intro pa pb ts
  have hmap : (compareProjections pa pb ts).map (·.yearOffset) =
      ts.filter (fun o => decide (o < pa.length) && decide (o < pb.length)) := by
    induction ts with
    | nil => rfl
    | cons o ts ih =>
      by_cases h : o < pa.length ∧ o < pb.length
      · simp only [compareProjections, List.filterMap_cons] at ih ⊢
        rw [dif_pos h]
        simp only [List.map_cons, List.filter_cons]
        rw [if_pos (by simpa using h)]
        exact congrArg _ ih
      · simp only [compareProjections, List.filterMap_cons] at ih ⊢
        rw [dif_neg h]
        simp only [List.filter_cons]
        rw [if_neg (by simpa using h)]
        exact ih
  refine ⟨hmap, ?_⟩
  calc (compareProjections pa pb ts).length
      = ((compareProjections pa pb ts).map (·.yearOffset)).length := (List.length_map _ _).symm
    _ = _ := by rw [hmap]

/-- C8: `projectFiscalPath` accepts every input: it always returns a
list of exactly `(years + 1).toNat` snapshots (the loop runs for
`t = 0 .. years`), and for a negative horizon the loop body never runs,
so the result is the empty sequence — no validation, no error. -/
theorem projectFiscalPath_never_rejects :
    ∀ (policyChanges : PolicyChanges) (options : ProjectionOptions),
      (projectFiscalPath policyChanges options).length = (options.years + 1).toNat ∧
      (options.years < 0 → projectFiscalPath policyChanges options = []) := by
  intro p o
  constructor
  · simp [projectFiscalPath, projectFiscalPathAux, projectLoop_length]
  · intro h
    have h0 : (o.years + 1).toNat = 0 := by omega
    rw [projectFiscalPath, projectFiscalPathAux, h0, projectLoop_zero]
    rfl

/-- Witness for C8: a negative horizon yields the empty projection. -/
theorem projectFiscalPath_never_rejects_witness :
    projectFiscalPath { revenueChange := 0, spendingChange := 0, growthEffect := 0 }
      { years := -1 } = [] :=
  (projectFiscalPath_never_rejects
    { revenueChange := 0, spendingChange := 0, growthEffect := 0 } { years := -1 }).2
    (by norm_num)

/-- C6: `assessDoomLoop` reads only the first and last snapshots, so two
projections of length ≥ 2 with the same first and last snapshots get
identical assessments (every field), whatever stands strictly between
them — covering replacement, insertion and removal of interior years. -/
theorem assessDoomLoop_endpoints_only :
    ∀ (p q : List ProjectionYear), 2 ≤ p.length → 2 ≤ q.length →
      p.head? = q.head? → p.getLast? = q.getLast? →
      assessDoomLoop p = assessDoomLoop q := by
  intro p q _ _ hh hl
  unfold assessDoomLoop
  rw [hh, hl]

/-- Witness for C6: swapping the interior of a projection for a
different interior leaves the assessment unchanged. -/
theorem assessDoomLoop_endpoints_only_witness :
    assessDoomLoop [snapA, snapMid1, snapB] =
      assessDoomLoop [snapA, snapMid2, snapMid1, snapB] :=
  assessDoomLoop_endpoints_only [snapA, snapMid1, snapB] [snapA, snapMid2, snapMid1, snapB]
    (by simp) (by simp) (by simp) (by simp [List.getLast?])

/-- C10: the severity ratio of `assessDoomLoop` has no guard for a zero
denominator.  When the last snapshot's `deficitRatio` is 0 the division
is by zero, so the severity value is never a finite number: a positive
numerator gives `+Infinity` (bucketed "high"), a zero numerator gives
`NaN` (every comparison false, bucketed "low"). -/
theorem assessDoomLoop_zero_deficit :
    ∀ (p : List ProjectionYear) (s l : ProjectionYear),
      p.head? = some s → p.getLast? = some l → l.deficitRatio = 0 →
      (∀ q : ℚ, jsDiv (l.interestRatio - s.interestRatio) |l.deficitRatio| ≠ JsNum.fin q) ∧
      (0 < l.interestRatio - s.interestRatio →
        jsDiv (l.interestRatio - s.interestRatio) |l.deficitRatio| = JsNum.posInf ∧
        (assessDoomLoop p).map (·.severity) = some "high") ∧
      (l.interestRatio - s.interestRatio = 0 →
        jsDiv (l.interestRatio - s.interestRatio) |l.deficitRatio| = JsNum.nan ∧
        (assessDoomLoop p).map (·.severity) = some "low") := by
  intro p s l hh hl hd
  have habs : |l.deficitRatio| = 0 := by rw [hd, abs_zero]
  refine ⟨?_, ?_, ?_⟩
  · intro q
    simp [jsDiv, habs]
    split_ifs <;> simp
  · intro hpos
    have hjs : jsDiv (l.interestRatio - s.interestRatio) |l.deficitRatio| = JsNum.posInf := by
      simp [jsDiv, habs, hpos]
    refine ⟨hjs, ?_⟩
    unfold assessDoomLoop
    rw [hh, hl]
    simp only [Option.map_some, Option.some.injEq]
    rw [hjs]
    rfl
  · intro hzero
    have hjs : jsDiv (l.interestRatio - s.interestRatio) |l.deficitRatio| = JsNum.nan := by
      simp [jsDiv, habs, hzero]
    refine ⟨hjs, ?_⟩
    unfold assessDoomLoop
    rw [hh, hl]
    simp only [Option.map_some, Option.some.injEq]
    rw [hjs]
    rfl

/-- Witness for C10: a two-snapshot projection ending with a zero
deficit ratio and a rising interest ratio is bucketed "high" through an
infinite severity. -/
theorem assessDoomLoop_zero_deficit_witness :
    (jsDiv (snapZeroDeficit.interestRatio - snapA.interestRatio) |snapZeroDeficit.deficitRatio| =
      JsNum.posInf) ∧
    (assessDoomLoop [snapA, snapZeroDeficit]).map (·.severity) = some "high" :=
  (assessDoomLoop_zero_deficit [snapA, snapZeroDeficit] snapA snapZeroDeficit
    rfl (by simp [List.getLast?]) (by norm_num [snapZeroDeficit])).2.1
    (by norm_num [snapZeroDeficit, snapA])

/-- C4 (amended): `getBaselineProjection` is exactly `projectFiscalPath`
on the zero policy with the premium enabled, zero political risk and no
reform, and the year-0 snapshot is computed on the unmodified baseline
stocks: its emitted `gdp` and `debt` are the baseline values and its
emitted `debtRatio` is `MACRO_BASELINE.debt / MACRO_BASELINE.gdp × 100`
rounded to one decimal (the emitted field carries the display rounding,
so it is not exactly the unrounded ratio). -/
theorem baseline_initial_state :
    ∀ (years : ℤ) (s : ProjectionYear),
      (getBaselineProjection years =
        projectFiscalPath { revenueChange := 0, spendingChange := 0, growthEffect := 0 }
          { years := years, enableRiskPremium := true, politicalRiskPremium := 0,
            structuralReform := none }) ∧
      ((getBaselineProjection years).head? = some s →
        s.gdp = MACRO_BASELINE.gdp ∧ s.debt = MACRO_BASELINE.debt ∧
        s.debtRatio = round1 (MACRO_BASELINE.debt / MACRO_BASELINE.gdp * 100)) := by
  intro years s
  refine ⟨rfl, fun h => ?_⟩
  rw [getBaselineProjection, projectFiscalPath, projectFiscalPathAux] at h
  cases hn : (years + 1).toNat with
  | zero => rw [hn, projectLoop_zero] at h; simp at h
  | succ n =>
    rw [hn, projectLoop_succ] at h
    simp only [List.map_cons, List.head?_cons, Option.some.injEq] at h
    subst h
    refine ⟨?_, ?_, ?_⟩
    · show round1 MACRO_BASELINE.gdp = MACRO_BASELINE.gdp
      norm_num [round1, jsRound, MACRO_BASELINE]
    · show round1 MACRO_BASELINE.debt = MACRO_BASELINE.debt
      norm_num [round1, jsRound, MACRO_BASELINE]
    · rfl

/-- Witness for C4 at the default 10-year horizon. -/
theorem baseline_initial_state_witness :
    baselineHeadSnapshot.gdp = MACRO_BASELINE.gdp ∧
    baselineHeadSnapshot.debt = MACRO_BASELINE.debt ∧
    baselineHeadSnapshot.debtRatio = round1 (MACRO_BASELINE.debt / MACRO_BASELINE.gdp * 100) :=
  (baseline_initial_state 10 baselineHeadSnapshot).2 rfl

/-- C4 counterexample: the year-0 emitted `debtRatio` is the rounded
value 115.8, which is not equal to the exact
`MACRO_BASELINE.debt / MACRO_BASELINE.gdp × 100 = 2200/19 ≈ 115.789`. -/
theorem baseline_initial_state_cex :
    ((getBaselineProjection 0).map (·.debtRatio)) = [1158 / 10] ∧
    (1158 / 10 : ℚ) ≠ MACRO_BASELINE.debt / MACRO_BASELINE.gdp * 100 := by
  constructor
  · rw [getBaselineProjection, projectFiscalPath, projectFiscalPathAux,
      show (((0 : ℤ) + 1)).toNat = 0 + 1 from rfl, projectLoop_succ, projectLoop_zero]
    simp only [List.map_cons, List.map_nil, stepRecord, snapshotAt]
    norm_num [round1, jsRound, debtRatioOf, MACRO_BASELINE]
  · norm_num [MACRO_BASELINE]

/-- C1 (amended): for every projection run and every pair of consecutive
records, the pre-rounding debt of year N+1 equals the pre-rounding debt
of year N plus year N's pre-rounding adjusted deficit, and the
pre-rounding GDP of year N+1 equals year N's pre-rounding GDP times
`(1 + g_N)` where `g_N` is year N's PRE-ROUNDING nominal growth decimal;
the emitted `nominalGrowthRate` field is `g_N × 100` rounded to two
decimals, and the emitted snapshot at index N is exactly the rounded
image of record N (state evolution happens only after the snapshot is
emitted, so consecutive records' stocks are exactly one year apart). -/
theorem projection_consecutive_identity :
    ∀ (policyChanges : PolicyChanges) (options : ProjectionOptions) (i : ℕ) (r r' : YearRec),
      (projectFiscalPathAux policyChanges options).get? i = some r →
      (projectFiscalPathAux policyChanges options).get? (i + 1) = some r' →
      r'.rawDebt = r.rawDebt + r.rawAdjustedDeficit ∧
      r'.rawGdp = r.rawGdp * (1 + r.rawNominalGrowth) ∧
      r.snapshot.nominalGrowthRate = (jsRound (r.rawNominalGrowth * 10000) : ℚ) / 100 ∧
      (projectFiscalPath policyChanges options).get? i = some r.snapshot := by
  intro p o i r r' h h'
  obtain ⟨hd, hg⟩ := projectLoop_consecutive p o _ _ _ _ i r r' h h'
  have hmem : r ∈ projectFiscalPathAux p o := List.get?_mem h
  obtain ⟨hrate, -, -, -⟩ := projectLoop_record_shape p o _ _ _ _ r hmem
  refine ⟨hd, hg, hrate, ?_⟩
  rw [projectFiscalPath, List.get?_map, h]
  rfl

/-- Witness for C1 at the first step of the two-year labor-market-reform
run. -/
theorem projection_consecutive_identity_witness :
    ((projectFiscalPathAux { revenueChange := 0, spendingChange := 0, growthEffect := 0 }
        { years := 2, structuralReform := some laborMarket }).get? 0 = some reformRec0) ∧
    ((projectFiscalPathAux { revenueChange := 0, spendingChange := 0, growthEffect := 0 }
        { years := 2, structuralReform := some laborMarket }).get? 1 = some reformRec1) ∧
    (reformRec1.rawDebt = reformRec0.rawDebt + reformRec0.rawAdjustedDeficit ∧
      reformRec1.rawGdp = reformRec0.rawGdp * (1 + reformRec0.rawNominalGrowth) ∧
      reformRec0.snapshot.nominalGrowthRate =
        (jsRound (reformRec0.rawNominalGrowth * 10000) : ℚ) / 100 ∧
      (projectFiscalPath { revenueChange := 0, spendingChange := 0, growthEffect := 0 }
        { years := 2, structuralReform := some laborMarket }).get? 0 =
          some reformRec0.snapshot) :=
  ⟨rfl, rfl,
    projection_consecutive_identity
      { revenueChange := 0, spendingChange := 0, growthEffect := 0 }
      { years := 2, structuralReform := some laborMarket } 0 reformRec0 reformRec1 rfl rfl⟩

/-- C1 counterexample: in the two-year labor-market-reform run, year 1's
pre-rounding nominal growth is 0.02975, whose emitted field rounds to
2.98; evolving year 1's pre-rounding GDP with the emitted (rounded) rate
does not give year 2's pre-rounding GDP, so the claim is false with
`nominalGrowthRate` read as the emitted rounded percentage field. -/
theorem projection_consecutive_identity_cex :
    ((projectFiscalPathAux { revenueChange := 0, spendingChange := 0, growthEffect := 0 }
        { years := 2, structuralReform := some laborMarket }).get? 2).map (·.rawGdp) ≠
      ((projectFiscalPathAux { revenueChange := 0, spendingChange := 0, growthEffect := 0 }
        { years := 2, structuralReform := some laborMarket }).get? 1).map
        (fun r => r.rawGdp * (1 + r.snapshot.nominalGrowthRate / 100)) := by
  rw [projectFiscalPathAux, show (((2 : ℤ) + 1)).toNat = (0 + 1) + 1 + 1 from rfl,
    projectLoop_succ, projectLoop_succ, projectLoop_succ, projectLoop_zero]
  simp only [List.get?_cons_succ, List.get?_cons_zero, Option.map_some, Option.some.injEq,
    stepRecord, snapshotAt]
  norm_num [nominalGrowthAt, adjustedDeficitAt, effectiveRateAt, debtRatioOf, primaryDeficitOf,
    calculateInterestRate, sovereignPremium, calculateReformGrowthBoost, laborMarket,
    MACRO_BASELINE, round1, round2, jsRound]

end BudgetSim
